import Mathlib

/-!
Verification development for the AMP-for-Endpoints policy-exclusion
statistics utility (src/policy_exclusions_stats.py).

The embedding models the three pieces of real logic in the script:

* the bit-flag decoding performed while parsing process exclusions
  (AMP4EP.parse_process_exclusions, lines 248-271),
* the per-policy exclusion extraction from the policy XML
  (AMP4EP.parse_path_exclusions, lines 204-217, and
  AMP4EP.parse_process_exclusions),
* the aggregation / threshold report (AMP4EP.exclusion_report,
  lines 274-355).

Python strings are Lean strings; Python ints are Lean Int; a pandas
DataFrame of records is a Lean list of records.  Python exceptions that
escape a function are modelled with Except: a raised IndexError or
ValueError aborts the function, so the function's value is an error and
none of the rows appended before the raise survive.  The in-place
addition of the File Scan column by exclusion_report is modelled by
returning the final state of both input collections alongside the
report.  Row order of the pandas pivot tables (pandas sorts the index;
here rows follow first-to-last occurrence order of dedup) is abstracted;
no statement below depends on row order of a summary table.
-/

/-- Helper for pySplit: accumulates the current field (reversed) while
walking the character list. -/
def pySplitAux : List Char → List Char → List String
  | acc, [] => [String.mk acc.reverse]
  | acc, c :: rest =>
    if c = '|' then String.mk acc.reverse :: pySplitAux [] rest
    else pySplitAux (c :: acc) rest

/-- Python text.split("|") (line 210 / line 252): splitting on a pipe,
with "".split("|") = [""] and trailing separators producing empty
fields.  Implemented over the character list so that it evaluates by
kernel reduction. -/
def pySplit (s : String) : List String := pySplitAux [] s.data

/-- Digit-string to number, for the model of Python int(). -/
def digitsToInt? (cs : List Char) : Option Int :=
  if cs.isEmpty then none
  else if cs.all (fun c => c.isDigit) then
    some ((cs.foldl (fun a c => 10 * a + (c.toNat - 48)) 0 : Nat) : Int)
  else none

/-- Python int(string) (line 253): optional surrounding whitespace, an
optional sign, then decimal digits; anything else raises ValueError,
modelled as none. -/
def pyInt? (s : String) : Option Int :=
  match (((s.data.dropWhile (fun c => c.isWhitespace)).reverse.dropWhile
      (fun c => c.isWhitespace)).reverse) with
  | '-' :: rest => (digitsToInt? rest).map (fun v => -v)
  | '+' :: rest => digitsToInt? rest
  | cs => digitsToInt? cs

/-- Python bool(e_flag & (0b1 << i)) (lines 262-269): the flag value has
Python-int (two's-complement) bitwise semantics, so the flag is an Int
and the mask test uses Int.land. -/
def flagBit (f : Int) (i : Nat) : Bool :=
  decide (Int.land f ((1 <<< i : Nat) : Int) ≠ 0)

/-- Policy metadata used by the parse functions: policy['name'] and
policy['guid']. -/
structure Policy where
  name : String
  guid : String
deriving DecidableEq

/-- One info element of the policy XML: its children's text payloads, in
document order (the text of each xml_item under an info node). -/
structure InfoElem where
  items : List String
deriving DecidableEq

/-- One process element of the policy XML: its children's text payloads. -/
structure ProcessElem where
  items : List String
deriving DecidableEq

/-- One exclusions element of the policy XML, with the info descendants
(path exclusions) and process descendants (process exclusions) that the
two iter() loops visit. -/
structure ExclusionsElem where
  infos : List InfoElem
  processes : List ProcessElem
deriving DecidableEq

/-- A policy XML document, reduced to the exclusions elements that
xml.iter visits. -/
structure PolicyXml where
  exclusionsElems : List ExclusionsElem
deriving DecidableEq

/-- One row of the e_paths DataFrame (lines 211-215), keys p_name,
p_guid, e_class, e_type, e_value. -/
structure PathRecord where
  p_name : String
  p_guid : String
  e_class : String
  e_type : String
  e_value : String
deriving DecidableEq

/-- One row of the e_processes DataFrame (lines 254-269).  Field names
follow the dict keys of e_item, including the source's misspelt key
Polcy Class.  fileScan is the File Scan column that exists only after
exclusion_report adds it (line 311); it is none as parsed. -/
structure ProcRecord where
  policyName : String
  policyGuid : String
  polcyClass : String
  exclusionVersion : String
  exclusionAuthType : String
  exclusionHash : String
  exclusionPath : String
  exclusionFlag : Int
  fileScanChild : Bool
  scanFilesWritten : Bool
  systemProcessProtection : Bool
  systemProcessProtectionChild : Bool
  maliciousActivity : Bool
  maliciousActivityChild : Bool
  selfProtect : Bool
  selfProtectChild : Bool
  fileScan : Option Bool
deriving DecidableEq

/-- The eight decoded boolean columns of a process-exclusion row, as
(column name, value) pairs in the order of the dict literal of e_item
(lines 262-269). -/
def procBoolColumns (r : ProcRecord) : List (String × Bool) :=
  [("File Scan Child", r.fileScanChild),
   ("Scan Files Written", r.scanFilesWritten),
   ("System Process Protection", r.systemProcessProtection),
   ("System Process Protection Child", r.systemProcessProtectionChild),
   ("Malicious Activity", r.maliciousActivity),
   ("Malicious Activity Child", r.maliciousActivityChild),
   ("Self Protect", r.selfProtect),
   ("Self Protect Child", r.selfProtectChild)]

/-- Parsing of one path-exclusion payload (lines 209-215): split on the
pipe; reading exclusion[1] and exclusion[4] raises IndexError when the
split has fewer than 5 fields.  Under the length guard the getD
defaults are never used. -/
def parsePathItem (pName pGuid : String) (text : String) :
    Except String PathRecord :=
  let exclusion := pySplit text
  if 5 ≤ exclusion.length then
    Except.ok { p_name := pName, p_guid := pGuid, e_class := "path",
                e_type := exclusion.getD 1 "", e_value := exclusion.getD 4 "" }
  else Except.error "IndexError: list index out of range"

/-- Parsing of one process-exclusion payload (lines 251-269): split on
the pipe; e_flag = int(exclusion[4]) raises IndexError below 5 fields
and ValueError when the field is not an integer literal; the eight
booleans are bit tests on e_flag.  The File Scan column does not exist
yet (none). -/
def parseProcessItem (pName pGuid : String) (text : String) :
    Except String ProcRecord :=
  let exclusion := pySplit text
  if 5 ≤ exclusion.length then
    match pyInt? (exclusion.getD 4 "") with
    | some e_flag =>
      Except.ok { policyName := pName, policyGuid := pGuid,
                  polcyClass := "process",
                  exclusionVersion := exclusion.getD 0 "",
                  exclusionAuthType := exclusion.getD 1 "",
                  exclusionHash := exclusion.getD 2 "",
                  exclusionPath := exclusion.getD 3 "",
                  exclusionFlag := e_flag,
                  fileScanChild := flagBit e_flag 0,
                  scanFilesWritten := flagBit e_flag 1,
                  systemProcessProtection := flagBit e_flag 2,
                  systemProcessProtectionChild := flagBit e_flag 3,
                  maliciousActivity := flagBit e_flag 4,
                  maliciousActivityChild := flagBit e_flag 5,
                  selfProtect := flagBit e_flag 6,
                  selfProtectChild := flagBit e_flag 7,
                  fileScan := none }
    | none => Except.error "ValueError: invalid literal for int() with base 10"
  else Except.error "IndexError: list index out of range"

/-- The per-entry loop of a parse function: rows are accumulated entry
by entry, and an exception thrown by any entry propagates out of the
function, discarding the DataFrame built so far. -/
def parseItems {β : Type} (f : String → Except String β) :
    List String → Except String (List β)
  | [] => Except.ok []
  | t :: rest =>
    match f t with
    | Except.error e => Except.error e
    | Except.ok r =>
      match parseItems f rest with
      | Except.error e => Except.error e
      | Except.ok rs => Except.ok (r :: rs)

/-- The payload texts visited by the nested iter loops of
parse_path_exclusions (lines 204-208): every child of every info
element of every exclusions element, in order. -/
def pathPayloads (xml : PolicyXml) : List String :=
  xml.exclusionsElems.flatMap fun ex => ex.infos.flatMap fun info => info.items

/-- The payload texts visited by the nested iter loops of
parse_process_exclusions (lines 248-250). -/
def processPayloads (xml : PolicyXml) : List String :=
  xml.exclusionsElems.flatMap fun ex => ex.processes.flatMap fun pe => pe.items

/-- AMP4EP.parse_path_exclusions (lines 176-217). -/
def parse_path_exclusions (policy : Policy) (xml : PolicyXml) :
    Except String (List PathRecord) :=
  parseItems (parsePathItem policy.name policy.guid) (pathPayloads xml)

/-- AMP4EP.parse_process_exclusions (lines 220-271). -/
def parse_process_exclusions (policy : Policy) (xml : PolicyXml) :
    Except String (List ProcRecord) :=
  parseItems (parseProcessItem policy.name policy.guid) (processPayloads xml)

/-- Whether an Except value is an error. -/
def isErr {ε α : Type} : Except ε α → Bool
  | Except.error _ => true
  | Except.ok _ => false

instance {ε α : Type} [DecidableEq ε] [DecidableEq α] : DecidableEq (Except ε α) := fun
  | Except.error a, Except.error b =>
      if h : a = b then Decidable.isTrue (congrArg Except.error h)
      else Decidable.isFalse (fun hh => h (Except.error.inj hh))
  | Except.error _, Except.ok _ => Decidable.isFalse (fun hh => Except.noConfusion hh)
  | Except.ok _, Except.error _ => Decidable.isFalse (fun hh => Except.noConfusion hh)
  | Except.ok a, Except.ok b =>
      if h : a = b then Decidable.isTrue (congrArg Except.ok h)
      else Decidable.isFalse (fun hh => h (Except.ok.inj hh))

/-- lambda x: x in range(0, 3) (line 311), applied to the raw Exclusion
Flag value. -/
def fileScanTest (x : Int) : Bool := decide (0 ≤ x ∧ x < 3)

/-- process['File Scan'] = process['Exclusion Flag'].apply(...) (line
311): writes the File Scan column into every row of the caller's
process DataFrame. -/
def assignFileScan (process : List ProcRecord) : List ProcRecord :=
  process.map fun r => { r with fileScan := some (fileScanTest r.exclusionFlag) }

/-- The column renaming of the path cross-tab (lines 301-306): the six
known type codes map to labels, an unknown code keeps its raw label. -/
def typeLabel (t : String) : String :=
  if t = "1" then "Threat"
  else if t = "2" then "Path"
  else if t = "3" then "File Extension"
  else if t = "4" then "File Name"
  else if t = "5" then "Process"
  else if t = "6" then "Wildcard"
  else t

/-- The distinct e_type values of the path records: the columns of
pd.crosstab(path.p_name, path.e_type) (line 296). -/
def pathTypeCodes (path : List PathRecord) : List String :=
  (path.map fun r => r.e_type).dedup

/-- The distinct p_name values of the path records: the rows of the
cross-tab. -/
def pathPolicyNames (path : List PathRecord) : List String :=
  (path.map fun r => r.p_name).dedup

/-- The number of path records of a given policy name and type code:
one cell of the cross-tab. -/
def countPathRecords (path : List PathRecord) (p t : String) : Nat :=
  (path.filter fun r => r.p_name == p && r.e_type == t).length

/-- One row of the path cross-tab (lines 296-307): one cell per type
code (with the renamed column labels) and the margins column Total
Exclusions, the sum across the row. -/
structure PathRow where
  policyName : String
  cells : List (String × Nat)
  total : Nat
deriving DecidableEq

/-- The cross-tab row of one policy. -/
def pathRowFor (path : List PathRecord) (p : String) : PathRow :=
  { policyName := p
    cells := (pathTypeCodes path).map fun t => (typeLabel t, countPathRecords path p t)
    total := ((pathTypeCodes path).map fun t => countPathRecords path p t).sum }

/-- path_exc (lines 296-307): the per-policy count matrix, margins
column included; the final margins row (dropped on line 307) is not
represented. -/
def path_exc (path : List PathRecord) : List PathRow :=
  (pathPolicyNames path).map (pathRowFor path)

/-- One row of pvt_process (lines 312-332): the six np.sum aggregates
of the boolean columns plus len of Policy GUID, renamed Total
Exclusions. -/
structure PvtRow where
  policyName : String
  fileScan : Nat
  fileScanChild : Nat
  systemProcessProtection : Nat
  systemProcessProtectionChild : Nat
  maliciousActivity : Nat
  maliciousActivityChild : Nat
  total : Nat
deriving DecidableEq

/-- The distinct Policy Name values of the process records: the pivot
index. -/
def procPolicyNames (process : List ProcRecord) : List String :=
  (process.map fun r => r.policyName).dedup

/-- The pivot row of one policy: each np.sum of a boolean column counts
its true cells within the policy's group, and len counts the group's
rows. -/
def pvtRowFor (process : List ProcRecord) (p : String) : PvtRow :=
  { policyName := p
    fileScan := ((process.filter fun r => r.policyName == p).filter
      fun r => r.fileScan == some true).length
    fileScanChild := ((process.filter fun r => r.policyName == p).filter
      fun r => r.fileScanChild).length
    systemProcessProtection := ((process.filter fun r => r.policyName == p).filter
      fun r => r.systemProcessProtection).length
    systemProcessProtectionChild := ((process.filter fun r => r.policyName == p).filter
      fun r => r.systemProcessProtectionChild).length
    maliciousActivity := ((process.filter fun r => r.policyName == p).filter
      fun r => r.maliciousActivity).length
    maliciousActivityChild := ((process.filter fun r => r.policyName == p).filter
      fun r => r.maliciousActivityChild).length
    total := (process.filter fun r => r.policyName == p).length }

/-- pvt_process (lines 312-332): the per-policy pivot of the process
records, computed on the DataFrame that already carries the File Scan
column. -/
def pvt_process (process : List ProcRecord) : List PvtRow :=
  (procPolicyNames process).map (pvtRowFor process)

/-- caution_list (lines 336-341): rows of the pivot whose Total
Exclusions lies in range(90, 101). -/
def caution_list (pvt : List PvtRow) : List (String × Nat) :=
  (pvt.filter fun row => decide (90 ≤ row.total ∧ row.total ≤ 100)).map
    fun row => (row.policyName, row.total)

/-- warning_list (lines 345-350): rows of the pivot whose Total
Exclusions exceeds 100. -/
def warning_list (pvt : List PvtRow) : List (String × Nat) :=
  (pvt.filter fun row => decide (100 < row.total)).map
    fun row => (row.policyName, row.total)

/-- The report's outward-visible tables and advisories. -/
structure Report where
  path_table : List PathRow
  process_table : List PvtRow
  caution : List (String × Nat)
  warning : List (String × Nat)
deriving DecidableEq

/-- The result of exclusion_report together with the final state of the
two DataFrames the caller passed in. -/
structure ReportResult where
  report : Report
  path : List PathRecord
  process : List ProcRecord
deriving DecidableEq

/-- AMP4EP.exclusion_report (lines 274-355): adds the File Scan column
to the caller's process DataFrame (line 311), builds the path cross-tab
and the process pivot, and collects the caution and warning advisories.
The path DataFrame is never written to. -/
def exclusion_report (path : List PathRecord) (process : List ProcRecord) :
    ReportResult :=
  let processMut := assignFileScan process
  let pvt := pvt_process processMut
  { report := { path_table := path_exc path
                process_table := pvt
                caution := caution_list pvt
                warning := warning_list pvt }
    path := path
    process := processMut }

/-- Whether a path payload is malformed: fewer than 5 pipe-delimited
fields. -/
def pathItemBad (t : String) : Bool := decide ((pySplit t).length < 5)

/-- Whether a process payload is malformed: fewer than 5 fields, or a
5th field that int() rejects. -/
def processItemBad (t : String) : Bool :=
  decide ((pySplit t).length < 5) || (pyInt? ((pySplit t).getD 4 "")).isNone

/-- A process-exclusion record as parsed, with the given policy name
and flag, for concrete examples. -/
def mkProc (p : String) (f : Int) : ProcRecord :=
  { policyName := p, policyGuid := "G", polcyClass := "process",
    exclusionVersion := "1", exclusionAuthType := "0",
    exclusionHash := "abcd", exclusionPath := "C:\\bar\\baz.exe",
    exclusionFlag := f,
    fileScanChild := flagBit f 0, scanFilesWritten := flagBit f 1,
    systemProcessProtection := flagBit f 2,
    systemProcessProtectionChild := flagBit f 3,
    maliciousActivity := flagBit f 4, maliciousActivityChild := flagBit f 5,
    selfProtect := flagBit f 6, selfProtectChild := flagBit f 7,
    fileScan := none }

/-- The process-exclusion payload of the spec's flag-7 example. -/
def procPayload7 : String := "1|0|abcd|C:\\bar\\baz.exe|7"

/-- The same payload with flag 1. -/
def procPayload1 : String := "1|0|abcd|C:\\bar\\baz.exe|1"

/-- A policy XML holding one well-formed and one malformed path payload
and one process payload whose flag field is not numeric. -/
def badXml : PolicyXml :=
  { exclusionsElems :=
      [{ infos := [{ items := ["1|2|x|y|v", "1|2"] }],
         processes := [{ items := ["1|0|abcd|C:\\bar\\baz.exe|x"] }] }] }

/-- Three synthetic policies with 95, 105 and 50 process exclusions,
the spec's threshold example. -/
def exampleProcs : List ProcRecord :=
  List.replicate 95 (mkProc "A" 1) ++ List.replicate 105 (mkProc "B" 1) ++
    List.replicate 50 (mkProc "C" 1)

/-- Two path records of one policy with two different type codes, for
the row-total witness. -/
def cpaths5 : List PathRecord :=
  [{ p_name := "P1", p_guid := "G1", e_class := "path", e_type := "1", e_value := "v1" },
   { p_name := "P1", p_guid := "G1", e_class := "path", e_type := "2", e_value := "v2" }]

/-- One process record, for the row-total witness. -/
def cprocs5 : List ProcRecord := [mkProc "P1" 1]

/-! ## Helper lemmas -/

/-- Clearing the bits of k from a power of two: the result is the power
of two when bit i of k is off, and zero when it is on. -/
theorem ldiff_two_pow (i k : Nat) :
    Nat.ldiff (2 ^ i) k = if k.testBit i then 0 else 2 ^ i := by
  cases h : k.testBit i
  · rw [if_neg (by simp)]
    apply Nat.eq_of_testBit_eq
    intro j
    rw [Nat.testBit_ldiff, Nat.testBit_two_pow]
    by_cases hij : i = j
    · subst hij; simp [h]
    · simp [hij]
  · rw [if_pos rfl]
    apply Nat.eq_of_testBit_eq
    intro j
    rw [Nat.testBit_ldiff, Nat.testBit_two_pow, Nat.zero_testBit]
    by_cases hij : i = j
    · subst hij; simp [h]
    · simp [hij]

/-- Testing a natural number against a power-of-two mask is the bit
test. -/
theorem nat_and_two_pow_ne_zero (n i : Nat) :
    (n &&& 2 ^ i ≠ 0) ↔ n.testBit i = true := by
  rw [Nat.and_two_pow]
  cases h : n.testBit i
  · simp
  · simp [Nat.two_pow_pos i |>.ne']

/-- Shift-then-mask form of the bit test on natural numbers. -/
theorem nat_shift_and_one (n i : Nat) :
    ((n >>> i) &&& 1 = 1) ↔ n.testBit i = true := by
  rw [Nat.and_one_is_mod, Nat.shiftRight_eq_div_pow, Nat.testBit_to_div_mod,
    decide_eq_true_eq]

/-- The mask test performed by the parser, bool(e_flag & (1 << i)),
agrees with the spec's shift-and-mask characterisation
(flag >> i) & 1 == 1, for every Python integer flag value, negative
values included. -/
theorem flagBit_shiftRight (f : Int) (i : Nat) :
    flagBit f i = decide (Int.land (Int.shiftRight f i) 1 = 1) := by
  unfold flagBit
  rw [decide_eq_decide]
  have hpow : ((1 <<< i : Nat) : Int) = ((2 ^ i : Nat) : Int) := by
    rw [Nat.shiftLeft_eq, one_mul]
  rw [hpow]
  cases f with
  | ofNat n =>
    show (((n &&& 2 ^ i : Nat) : Int) ≠ 0) ↔ ((((n >>> i) &&& 1 : Nat) : Int) = 1)
    have h1 : (((n &&& 2 ^ i : Nat) : Int) ≠ 0) ↔ (n &&& 2 ^ i ≠ 0) := by omega
    have h2 : ((((n >>> i) &&& 1 : Nat) : Int) = 1) ↔ ((n >>> i) &&& 1 = 1) := by omega
    rw [h1, h2, nat_and_two_pow_ne_zero, nat_shift_and_one]
  | negSucc m =>
    show (((Nat.ldiff (2 ^ i) m : Nat) : Int) ≠ 0) ↔
      (((Nat.ldiff 1 (m >>> i) : Nat) : Int) = 1)
    have h1 : (((Nat.ldiff (2 ^ i) m : Nat) : Int) ≠ 0) ↔ (Nat.ldiff (2 ^ i) m ≠ 0) := by
      omega
    have h2 : (((Nat.ldiff 1 (m >>> i) : Nat) : Int) = 1) ↔ (Nat.ldiff 1 (m >>> i) = 1) := by
      omega
    have h3 : Nat.ldiff 1 (m >>> i) = if (m >>> i).testBit 0 then 0 else 1 := by
      have h30 := ldiff_two_pow 0 (m >>> i)
      simpa using h30
    rw [h1, h2, ldiff_two_pow, h3, Nat.testBit_shiftRight, Nat.add_zero]
    cases h : m.testBit i
    · simp [Nat.two_pow_pos i |>.ne']
    · simp

/-- Sum of a pointwise sum of two Nat-valued maps. -/
theorem sum_map_add_nat {β : Type} (ts : List β) (A B : β → Nat) :
    (ts.map fun t => A t + B t).sum = (ts.map A).sum + (ts.map B).sum := by
  induction ts with
  | nil => rfl
  | cons t ts ih =>
    simp only [List.map_cons, List.sum_cons, ih]
    omega

/-- Summing the indicator of one value over a duplicate-free list that
contains it gives one. -/
theorem sum_map_indicator {β : Type} [BEq β] [LawfulBEq β] (b : β) :
    ∀ ts : List β, ts.Nodup → b ∈ ts →
      (ts.map fun t => if b == t then 1 else 0).sum = 1 := by
  intro ts
  induction ts with
  | nil => intro _ hmem; cases hmem
  | cons t ts ih =>
    intro hnd hmem
    by_cases h : b = t
    · subst h
      have hb : b ∉ ts := (List.nodup_cons.mp hnd).1
      have hz : (ts.map fun t => if b == t then 1 else 0) = ts.map fun _ => (0 : Nat) := by
        apply List.map_congr_left
        intro x hx
        have hbx : ¬ b = x := fun he => hb (he ▸ hx)
        simp [hbx]
      simp [hz]
    · have hmem' : b ∈ ts := by
        rcases List.mem_cons.mp hmem with h1 | h1
        · exact absurd h1 h
        · exact h1
      have hbt : (b == t) = false := by simp [h]
      rw [List.map_cons, List.sum_cons, hbt]
      simpa using ih (List.nodup_cons.mp hnd).2 hmem'

/-- Partition of a list's length by the values of a key, summed over
any duplicate-free list of keys covering the list. -/
theorem length_filter_key_sum {α β : Type} [BEq β] [LawfulBEq β] (key : α → β) :
    ∀ (S : List α) (ts : List β), ts.Nodup → (∀ r ∈ S, key r ∈ ts) →
      (ts.map fun t => (S.filter fun r => key r == t).length).sum = S.length := by
  intro S
  induction S with
  | nil =>
    intro ts _ _
    simp
  | cons r S ih =>
    intro ts hnd hmem
    have hstep : (ts.map fun t => ((r :: S).filter fun x => key x == t).length)
        = ts.map fun t =>
            (if key r == t then 1 else 0) + (S.filter fun x => key x == t).length := by
      apply List.map_congr_left
      intro t _
      rw [List.filter_cons]
      by_cases h : key r = t
      · simp [h]
        omega
      · simp [h]
    rw [hstep, sum_map_add_nat, sum_map_indicator (key r) ts hnd (hmem r (by simp)),
      ih ts hnd (fun x hx => hmem x (List.mem_cons_of_mem _ hx)), List.length_cons]
    omega

/-- One cross-tab cell counts, inside the policy's own records, the
records of the given type. -/
theorem countPathRecords_filter (path : List PathRecord) (p t : String) :
    countPathRecords path p t
      = ((path.filter fun r => r.p_name == p).filter fun r => r.e_type == t).length := by
  unfold countPathRecords
  rw [List.filter_filter]
  congr 1
  apply List.filter_congr
  intro r _
  rw [Bool.and_comm]

/-- The sum of one cross-tab row's cells is the number of path records
of that policy. -/
theorem path_row_total (path : List PathRecord) (p : String) :
    ((pathTypeCodes path).map fun t => countPathRecords path p t).sum
      = (path.filter fun r => r.p_name == p).length := by
  have h1 : ((pathTypeCodes path).map fun t => countPathRecords path p t)
      = (pathTypeCodes path).map fun t =>
          ((path.filter fun r => r.p_name == p).filter fun r => r.e_type == t).length :=
    List.map_congr_left fun t _ => countPathRecords_filter path p t
  rw [h1]
  refine length_filter_key_sum (fun r : PathRecord => r.e_type) _ (pathTypeCodes path) ?_ ?_
  · unfold pathTypeCodes
    exact List.nodup_dedup _
  · intro r hr
    unfold pathTypeCodes
    rw [List.mem_dedup]
    exact List.mem_map_of_mem _ (List.mem_filter.mp hr).1

/-- Adding the File Scan column commutes with grouping by policy
name. -/
theorem assign_filter_name (process : List ProcRecord) (p : String) :
    (assignFileScan process).filter (fun r => r.policyName == p)
      = assignFileScan (process.filter fun r => r.policyName == p) := by
  unfold assignFileScan
  rw [List.filter_map]
  rfl

/-- Adding the File Scan column does not change any policy's record
count. -/
theorem assign_count_name (process : List ProcRecord) (p : String) :
    ((assignFileScan process).filter fun r => r.policyName == p).length
      = (process.filter fun r => r.policyName == p).length := by
  rw [assign_filter_name]
  unfold assignFileScan
  rw [List.length_map]

/-- Adding the File Scan column does not change the pivot index. -/
theorem procPolicyNames_assign (process : List ProcRecord) :
    procPolicyNames (assignFileScan process) = procPolicyNames process := by
  unfold procPolicyNames assignFileScan
  rw [List.map_map]
  rfl

/-- A policy name appears in the caution advisories exactly when the
policy is present and its record count lies in range(90, 101). -/
theorem mem_caution_names (process : List ProcRecord) (p : String) :
    p ∈ (caution_list (pvt_process process)).map Prod.fst ↔
      (p ∈ procPolicyNames process ∧
        90 ≤ (process.filter fun r => r.policyName == p).length ∧
        (process.filter fun r => r.policyName == p).length ≤ 100) := by
  unfold caution_list pvt_process
  rw [List.map_map]
  constructor
  · intro hp
    rw [List.mem_map] at hp
    obtain ⟨row, hrow, hname⟩ := hp
    rw [List.mem_filter] at hrow
    obtain ⟨hpvt, hpred⟩ := hrow
    rw [List.mem_map] at hpvt
    obtain ⟨q, hq, hrowq⟩ := hpvt
    subst hrowq
    have hq' : q = p := hname
    subst hq'
    have hb := of_decide_eq_true hpred
    exact ⟨hq, hb.1, hb.2⟩
  · rintro ⟨hq, h1, h2⟩
    rw [List.mem_map]
    refine ⟨pvtRowFor process p, ?_, rfl⟩
    rw [List.mem_filter]
    exact ⟨List.mem_map_of_mem _ hq, decide_eq_true ⟨h1, h2⟩⟩

/-- A policy name appears in the warning advisories exactly when the
policy is present and its record count exceeds 100. -/
theorem mem_warning_names (process : List ProcRecord) (p : String) :
    p ∈ (warning_list (pvt_process process)).map Prod.fst ↔
      (p ∈ procPolicyNames process ∧
        100 < (process.filter fun r => r.policyName == p).length) := by
  unfold warning_list pvt_process
  rw [List.map_map]
  constructor
  · intro hp
    rw [List.mem_map] at hp
    obtain ⟨row, hrow, hname⟩ := hp
    rw [List.mem_filter] at hrow
    obtain ⟨hpvt, hpred⟩ := hrow
    rw [List.mem_map] at hpvt
    obtain ⟨q, hq, hrowq⟩ := hpvt
    subst hrowq
    have hq' : q = p := hname
    subst hq'
    exact ⟨hq, of_decide_eq_true hpred⟩
  · rintro ⟨hq, h1⟩
    rw [List.mem_map]
    refine ⟨pvtRowFor process p, ?_, rfl⟩
    rw [List.mem_filter]
    exact ⟨List.mem_map_of_mem _ hq, decide_eq_true h1⟩

/-- If any entry of the loop raises, the whole parse is an error. -/
theorem parseItems_isErr {β : Type} (f : String → Except String β) :
    ∀ l : List String, (∃ t ∈ l, isErr (f t) = true) →
      isErr (parseItems f l) = true := by
  intro l
  induction l with
  | nil => rintro ⟨t, ht, _⟩; cases ht
  | cons a l ih =>
    rintro ⟨t, ht, hbad⟩
    rcases List.mem_cons.mp ht with rfl | ht'
    · cases hfa : f t with
      | error e => simp [parseItems, hfa, isErr]
      | ok r => rw [hfa] at hbad; simp [isErr] at hbad
    · cases hfa : f a with
      | error e => simp [parseItems, hfa, isErr]
      | ok r =>
        have hrest := ih ⟨t, ht', hbad⟩
        cases hr : parseItems f l with
        | error e => simp [parseItems, hfa, hr, isErr]
        | ok rs => rw [hr] at hrest; simp [isErr] at hrest

/-- Writing the File Scan column twice is the same as writing it
once. -/
theorem assign_assign (process : List ProcRecord) :
    assignFileScan (assignFileScan process) = assignFileScan process := by
  unfold assignFileScan
  rw [List.map_map]
  apply List.map_congr_left
  intro r _
  cases r
  rfl

/-- The range(0, 3) membership test is the test for flag values 0, 1
and 2. -/
theorem fileScanTest_eq (x : Int) : fileScanTest x = decide (x = 0 ∨ x = 1 ∨ x = 2) := by
  unfold fileScanTest
  rw [decide_eq_decide]
  omega

/-! ## Claims -/

/-- C1 counterexample: the claim binds bit 0 to a boolean named
File-Scan and bit 1 to one named File-Scan-Child.  In the code the
record parsed from a payload with flag 1 (only bit 0 set) carries a
boolean column named File Scan Child with value true, although the
claim's formula for its stated bit index 1, (1 >> 1) & 1 == 1, is
false; and the record has no decoded boolean column named File Scan at
all. -/
theorem C1_bit_names_counterexample :
    parseProcessItem "P" "G" procPayload1 = Except.ok (mkProc "P" 1)
  ∧ (procBoolColumns (mkProc "P" 1)).lookup "File Scan Child" = some true
  ∧ decide (Int.land (Int.shiftRight (1 : Int) 1) 1 = 1) = false
  ∧ (procBoolColumns (mkProc "P" 1)).lookup "File Scan" = none := by
  decide

/-- C1 (amended): every decoded boolean of a parsed process-exclusion
record is the test (flag >> i) & 1 == 1 on the record's raw flag, for
bit indices 0..7 in order, but under the code's own column names: bit 0
is File Scan Child, bit 1 is Scan Files Written, bit 2 is System
Process Protection, bit 3 is System Process Protection Child, bit 4 is
Malicious Activity, bit 5 is Malicious Activity Child, bit 6 is Self
Protect, bit 7 is Self Protect Child.  In particular a record parsed
with flag 7 has File Scan Child, Scan Files Written and System Process
Protection true and the remaining five booleans false. -/
theorem C1_flag_decode_amended (n g payload : String) (r : ProcRecord)
    (h : parseProcessItem n g payload = Except.ok r) :
    procBoolColumns r =
      [("File Scan Child", decide (Int.land (Int.shiftRight r.exclusionFlag 0) 1 = 1)),
       ("Scan Files Written", decide (Int.land (Int.shiftRight r.exclusionFlag 1) 1 = 1)),
       ("System Process Protection",
         decide (Int.land (Int.shiftRight r.exclusionFlag 2) 1 = 1)),
       ("System Process Protection Child",
         decide (Int.land (Int.shiftRight r.exclusionFlag 3) 1 = 1)),
       ("Malicious Activity", decide (Int.land (Int.shiftRight r.exclusionFlag 4) 1 = 1)),
       ("Malicious Activity Child",
         decide (Int.land (Int.shiftRight r.exclusionFlag 5) 1 = 1)),
       ("Self Protect", decide (Int.land (Int.shiftRight r.exclusionFlag 6) 1 = 1)),
       ("Self Protect Child", decide (Int.land (Int.shiftRight r.exclusionFlag 7) 1 = 1))] := by
  unfold parseProcessItem at h
  by_cases hlen : 5 ≤ (pySplit payload).length
  · rw [if_pos hlen] at h
    cases hint : pyInt? ((pySplit payload).getD 4 "") with
    | none => rw [hint] at h; injection h
    | some f =>
      rw [hint] at h
      injection h with h'
      subst h'
      simp [procBoolColumns, flagBit_shiftRight]
  · rw [if_neg hlen] at h
    injection h

/-- C1 witness: for the spec's flag-7 payload, the record parses and
bits 0, 1 and 2 are the three true booleans. -/
theorem C1_flag_decode_witness :
    parseProcessItem "P" "G" procPayload7 = Except.ok (mkProc "P" 7)
  ∧ procBoolColumns (mkProc "P" 7) =
      [("File Scan Child", true), ("Scan Files Written", true),
       ("System Process Protection", true), ("System Process Protection Child", false),
       ("Malicious Activity", false), ("Malicious Activity Child", false),
       ("Self Protect", false), ("Self Protect Child", false)] := by
  have hp : parseProcessItem "P" "G" procPayload7 = Except.ok (mkProc "P" 7) := by decide
  refine ⟨hp, ?_⟩
  rw [C1_flag_decode_amended "P" "G" procPayload7 (mkProc "P" 7) hp]
  decide

/-- C2 counterexample: in a policy XML holding a well-formed path
payload next to a malformed one (fewer than 5 fields), and a process
payload with a non-numeric flag, both parse functions raise instead of
skipping the malformed entry: they return an error and no sibling
records. -/
theorem C2_malformed_entry_counterexample :
    parse_path_exclusions { name := "P", guid := "G" } badXml
      = Except.error "IndexError: list index out of range"
  ∧ parse_process_exclusions { name := "P", guid := "G" } badXml
      = Except.error "ValueError: invalid literal for int() with base 10" := by
  decide

/-- C2 (amended): a malformed exclusion payload (fewer than 5
pipe-delimited fields, or a process flag field that int() rejects) does
not merely skip that entry: the exception propagates, the whole parse
call for that policy fails, and no records of sibling entries are
returned by it. -/
theorem C2_malformed_aborts_policy_amended (policy : Policy) (xml : PolicyXml) :
    ((∃ t ∈ pathPayloads xml, pathItemBad t = true) →
        isErr (parse_path_exclusions policy xml) = true)
  ∧ ((∃ t ∈ processPayloads xml, processItemBad t = true) →
        isErr (parse_process_exclusions policy xml) = true) := by
  constructor
  · rintro ⟨t, ht, hbad⟩
    apply parseItems_isErr
    refine ⟨t, ht, ?_⟩
    unfold pathItemBad at hbad
    have hlen : (pySplit t).length < 5 := of_decide_eq_true hbad
    unfold parsePathItem
    rw [if_neg (by omega)]
    rfl
  · rintro ⟨t, ht, hbad⟩
    apply parseItems_isErr
    refine ⟨t, ht, ?_⟩
    unfold processItemBad at hbad
    rw [Bool.or_eq_true] at hbad
    unfold parseProcessItem
    rcases hbad with h | h
    · have hlen : (pySplit t).length < 5 := of_decide_eq_true h
      rw [if_neg (by omega)]
      rfl
    · by_cases hlen : 5 ≤ (pySplit t).length
      · rw [if_pos hlen, Option.isNone_iff_eq_none.mp h]
        rfl
      · rw [if_neg hlen]
        rfl

/-- C2 witness: the malformed payloads of badXml satisfy the
badness predicates and both parse calls indeed error out. -/
theorem C2_malformed_aborts_policy_witness :
    isErr (parse_path_exclusions { name := "P", guid := "G" } badXml) = true
  ∧ isErr (parse_process_exclusions { name := "P", guid := "G" } badXml) = true := by
  constructor
  · exact (C2_malformed_aborts_policy_amended { name := "P", guid := "G" } badXml).1
      (by decide)
  · exact (C2_malformed_aborts_policy_amended { name := "P", guid := "G" } badXml).2
      (by decide)

set_option maxRecDepth 4000 in
/-- C3: a policy is listed under caution exactly when its total
process-exclusion count lies in [90, 100], under warning exactly when
the total exceeds 100, and a total below 90 produces no advisory;
moreover for the synthetic policies A (95 records), B (105) and C (50)
the caution list is exactly A and the warning list exactly B, with C in
neither. -/
theorem C3_threshold_classification :
    (∀ (process : List ProcRecord) (p : String),
      (p ∈ ((exclusion_report [] process).report.caution.map Prod.fst) ↔
        (p ∈ procPolicyNames process ∧
          90 ≤ (process.filter fun r => r.policyName == p).length ∧
          (process.filter fun r => r.policyName == p).length ≤ 100)) ∧
      (p ∈ ((exclusion_report [] process).report.warning.map Prod.fst) ↔
        (p ∈ procPolicyNames process ∧
          100 < (process.filter fun r => r.policyName == p).length)))
  ∧ (exclusion_report [] exampleProcs).report.caution = [("A", 95)]
  ∧ (exclusion_report [] exampleProcs).report.warning = [("B", 105)] := by
  refine ⟨fun process p => ⟨?_, ?_⟩, by decide, by decide⟩
  · show p ∈ (caution_list (pvt_process (assignFileScan process))).map Prod.fst ↔ _
    rw [mem_caution_names, procPolicyNames_assign, assign_count_name]
  · show p ∈ (warning_list (pvt_process (assignFileScan process))).map Prod.fst ↔ _
    rw [mem_warning_names, procPolicyNames_assign, assign_count_name]

/-- C4: in the process summary a record is counted in a policy's File
Scan column exactly when its raw integer Exclusion Flag value is 0, 1
or 2, regardless of the decoded boolean fields. -/
theorem C4_file_scan_raw_flag_range (process : List ProcRecord) (row : PvtRow)
    (h : row ∈ (exclusion_report [] process).report.process_table) :
    row.fileScan = (process.filter fun r => r.policyName == row.policyName &&
        decide (r.exclusionFlag = 0 ∨ r.exclusionFlag = 1 ∨ r.exclusionFlag = 2)).length := by
  have h' : row ∈ (procPolicyNames (assignFileScan process)).map
      (pvtRowFor (assignFileScan process)) := h
  rw [List.mem_map] at h'
  obtain ⟨q, hq, hrow⟩ := h'
  subst hrow
  rw [show (pvtRowFor (assignFileScan process) q).policyName = q from rfl]
  show (((assignFileScan process).filter fun r => r.policyName == q).filter
      fun r => r.fileScan == some true).length = _
  rw [assign_filter_name]
  unfold assignFileScan
  rw [List.filter_map, List.length_map, List.filter_filter]
  congr 1
  apply List.filter_congr
  intro r _
  show ((some (fileScanTest r.exclusionFlag) == some true) && (r.policyName == q))
      = (r.policyName == q &&
          decide (r.exclusionFlag = 0 ∨ r.exclusionFlag = 1 ∨ r.exclusionFlag = 2))
  rw [← fileScanTest_eq]
  cases fileScanTest r.exclusionFlag <;> cases r.policyName == q <;> rfl

/-- C4 witness: for one policy with flags 1 and 5, the pivot's File
Scan count is 1, counting exactly the flag-1 record. -/
theorem C4_file_scan_witness :
    (⟨"P", 1, 2, 1, 0, 0, 0, 2⟩ : PvtRow) ∈
      (exclusion_report [] [mkProc "P" 1, mkProc "P" 5]).report.process_table
  ∧ (⟨"P", 1, 2, 1, 0, 0, 0, 2⟩ : PvtRow).fileScan
      = ([mkProc "P" 1, mkProc "P" 5].filter fun r => r.policyName == "P" &&
          decide (r.exclusionFlag = 0 ∨ r.exclusionFlag = 1 ∨ r.exclusionFlag = 2)).length :=
  ⟨by decide, C4_file_scan_raw_flag_range [mkProc "P" 1, mkProc "P" 5] _ (by decide)⟩

/-- C5: every row total of the path cross-tab is the number of path
records of that row's policy, and every Total Exclusions value in the
process pivot is the number of process records of that row's policy. -/
theorem C5_row_totals_consistency (path : List PathRecord) (process : List ProcRecord) :
    (∀ row ∈ (exclusion_report path process).report.path_table,
        row.total = (path.filter fun r => r.p_name == row.policyName).length)
  ∧ (∀ row ∈ (exclusion_report path process).report.process_table,
        row.total = (process.filter fun r => r.policyName == row.policyName).length) := by
  constructor
  · intro row hrow
    have h' : row ∈ (pathPolicyNames path).map (pathRowFor path) := hrow
    rw [List.mem_map] at h'
    obtain ⟨p, hp, hr⟩ := h'
    subst hr
    rw [show (pathRowFor path p).policyName = p from rfl]
    show ((pathTypeCodes path).map fun t => countPathRecords path p t).sum = _
    exact path_row_total path p
  · intro row hrow
    have h' : row ∈ (procPolicyNames (assignFileScan process)).map
        (pvtRowFor (assignFileScan process)) := hrow
    rw [List.mem_map] at h'
    obtain ⟨p, hp, hr⟩ := h'
    subst hr
    rw [show (pvtRowFor (assignFileScan process) p).policyName = p from rfl]
    show ((assignFileScan process).filter fun r => r.policyName == p).length = _
    exact assign_count_name process p

/-- C5 witness: for two path records of policy P1 (types 1 and 2) its
cross-tab row total is 2, and for one process record of P1 the pivot
total is 1. -/
theorem C5_row_totals_witness :
    (⟨"P1", [("Threat", 1), ("Path", 1)], 2⟩ : PathRow).total
      = (cpaths5.filter fun r => r.p_name == "P1").length
  ∧ (⟨"P1", 1, 1, 0, 0, 0, 0, 1⟩ : PvtRow).total
      = (cprocs5.filter fun r => r.policyName == "P1").length :=
  ⟨(C5_row_totals_consistency cpaths5 cprocs5).1 _ (by decide),
   (C5_row_totals_consistency cpaths5 cprocs5).2 _ (by decide)⟩

/-- C6: a path payload with at least five pipe-delimited fields parses
to a record with class fixed to path, type code taken from field index
1 and value taken from field index 4 of the split payload. -/
theorem C6_path_record_fields (n g payload : String)
    (h : 5 ≤ (pySplit payload).length) :
    parsePathItem n g payload =
      Except.ok { p_name := n, p_guid := g, e_class := "path",
                  e_type := (pySplit payload).getD 1 "",
                  e_value := (pySplit payload).getD 4 "" }
  ∧ (pySplit payload)[1]? = some ((pySplit payload).getD 1 "")
  ∧ (pySplit payload)[4]? = some ((pySplit payload).getD 4 "") := by
  refine ⟨?_, ?_, ?_⟩
  · unfold parsePathItem
    rw [if_pos h]
  · rw [List.getD_eq_getElem?_getD, List.getElem?_eq_getElem (by omega)]
    rfl
  · rw [List.getD_eq_getElem?_getD, List.getElem?_eq_getElem (by omega)]
    rfl

/-- C6 witness: the spec's example payload yields type code 2 and value
C:\foo. -/
theorem C6_path_record_fields_witness :
    (5 ≤ (pySplit "1|2|x|y|C:\\foo").length)
  ∧ (parsePathItem "P" "G" "1|2|x|y|C:\\foo" =
      Except.ok { p_name := "P", p_guid := "G", e_class := "path",
                  e_type := "2", e_value := "C:\\foo" })
  ∧ (pySplit "1|2|x|y|C:\\foo")[1]? = some "2"
  ∧ (pySplit "1|2|x|y|C:\\foo")[4]? = some "C:\\foo" := by
  have h5 : 5 ≤ (pySplit "1|2|x|y|C:\\foo").length := by decide
  have hc := C6_path_record_fields "P" "G" "1|2|x|y|C:\\foo" h5
  refine ⟨h5, ?_, ?_, ?_⟩
  · rw [hc.1]; decide
  · rw [hc.2.1]; decide
  · rw [hc.2.2]; decide

/-- C7: when every exclusions element of the policy XML has no path and
no process entries (in particular when there are no exclusions elements
at all), both parse functions return empty collections and no error. -/
theorem C7_empty_exclusions (policy : Policy) (xml : PolicyXml)
    (h : ∀ ex ∈ xml.exclusionsElems,
        (∀ info ∈ ex.infos, info.items = ([] : List String)) ∧
        (∀ pe ∈ ex.processes, pe.items = ([] : List String))) :
    parse_path_exclusions policy xml = Except.ok []
  ∧ parse_process_exclusions policy xml = Except.ok [] := by
  have hp : pathPayloads xml = [] := by
    unfold pathPayloads
    rw [List.flatMap_eq_nil_iff]
    intro ex hex
    rw [List.flatMap_eq_nil_iff]
    intro info hinfo
    exact (h ex hex).1 info hinfo
  have hq : processPayloads xml = [] := by
    unfold processPayloads
    rw [List.flatMap_eq_nil_iff]
    intro ex hex
    rw [List.flatMap_eq_nil_iff]
    intro pe hpe
    exact (h ex hex).2 pe hpe
  constructor
  · unfold parse_path_exclusions
    rw [hp]
    rfl
  · unfold parse_process_exclusions
    rw [hq]
    rfl

/-- C7 witness: an exclusions element with an empty info element and an
empty process element yields two empty collections. -/
theorem C7_empty_exclusions_witness :
    parse_path_exclusions { name := "P", guid := "G" }
        { exclusionsElems := [{ infos := [{ items := [] }],
                                processes := [{ items := [] }] }] }
      = Except.ok []
  ∧ parse_process_exclusions { name := "P", guid := "G" }
        { exclusionsElems := [{ infos := [{ items := [] }],
                                processes := [{ items := [] }] }] }
      = Except.ok [] :=
  C7_empty_exclusions _ _ (by decide)

/-- C8: running exclusion_report again on the collections in the state
the first run left them yields the same report and the same final
state: the second write of the File Scan column recomputes the same
values from the unchanged Exclusion Flag column. -/
theorem C8_report_idempotent (path : List PathRecord) (process : List ProcRecord) :
    exclusion_report (exclusion_report path process).path
        (exclusion_report path process).process
      = exclusion_report path process := by
  show exclusion_report path (assignFileScan process) = exclusion_report path process
  unfold exclusion_report
  rw [assign_assign]

/-- C9: no policy name occurs in both the caution and the warning list,
because a pivot row's total cannot lie in [90, 100] and exceed 100 at
the same time. -/
theorem C9_caution_warning_disjoint (path : List PathRecord) (process : List ProcRecord) :
    ((exclusion_report path process).report.caution.map Prod.fst).all
      (fun p => !(((exclusion_report path process).report.warning.map Prod.fst).contains p))
      = true := by
  rw [List.all_eq_true]
  intro p hp
  have hp' : p ∈ (caution_list (pvt_process (assignFileScan process))).map Prod.fst := hp
  rw [mem_caution_names] at hp'
  obtain ⟨-, h90, h100⟩ := hp'
  have hw : ¬ p ∈ (warning_list (pvt_process (assignFileScan process))).map Prod.fst := by
    rw [mem_warning_names]
    rintro ⟨-, hgt⟩
    omega
  cases hc : ((exclusion_report path process).report.warning.map Prod.fst).contains p
  · rfl
  · have hmem : p ∈ (warning_list (pvt_process (assignFileScan process))).map Prod.fst :=
      List.elem_iff.mp hc
    exact absurd hmem hw

/-- C10: exclusion_report leaves the path collection exactly as it was,
but returns the process collection with a File Scan column written into
every record (the range(0, 3) test of its flag), all other fields
unchanged; on a record collection parsed fresh (File Scan column
absent) the mutation is observable after the call. -/
theorem C10_report_mutates_process_only (path : List PathRecord)
    (process : List ProcRecord) :
    (exclusion_report path process).path = path
  ∧ ((exclusion_report path process).process.map fun r => r.fileScan)
      = (process.map fun r => some (fileScanTest r.exclusionFlag))
  ∧ ((exclusion_report path process).process.map fun r => { r with fileScan := none })
      = (process.map fun r => { r with fileScan := none })
  ∧ decide ((exclusion_report [] [mkProc "P" 5]).process = [mkProc "P" 5]) = false := by
  refine ⟨rfl, ?_, ?_, by decide⟩
  · show ((assignFileScan process).map fun r => r.fileScan) = _
    unfold assignFileScan
    rw [List.map_map]
    rfl
  · show ((assignFileScan process).map fun r => { r with fileScan := none }) = _
    unfold assignFileScan
    rw [List.map_map]
    rfl
